import Mathlib

/-!
Shallow embedding of the rock-paper-scissors server actions in
`src/actions/game.ts` (Supabase-backed Next.js server actions), together
with proofs checking the natural-language specification against it.

Modelling conventions:
* A stored `games` row is a `Game` structure mirroring the TypeScript
  `Game` interface; nullable columns are `Option`s.
* Each server action performs a point fetch by id followed by at most one
  `update` (or one `insert`).  We model the per-key view of the store: an
  action takes the fetch result (`Option Game`) for the requested id and
  returns its reply together with the stored row after the action.
* Supabase `update` writes only the columns present in the partial update
  object; `GameUpdate` models `Partial<Game>` and `applyUpdate` models the
  column-wise write.
* JavaScript truthiness tests on nullable string columns
  (`if (game.player2_id)`) are modelled by `truthy`: `null` and the empty
  string are falsy, every other string is truthy.  Choice columns hold
  non-empty strings, so truthiness on them is `Option.isSome`.
* The fetch and the update of one action are separate awaited I/O
  operations with no version check, so two concurrent actions on the same
  row may both fetch before either updates.  The decision phase of each
  action is therefore factored out (`makeMoveUpdate`, `joinGameDecide`) so
  that interleaved executions can be expressed by applying one call's
  update after another call's update.
-/

inductive Choice
  | rock
  | paper
  | scissors
deriving DecidableEq, Repr, Fintype

inductive Status
  | waiting
  | playing
  | finished
deriving DecidableEq, Repr, Fintype

/-- A row of the `games` table, mirroring the `Game` interface of
`src/actions/game.ts`. -/
structure Game where
  id : String
  player1_id : Option String
  player2_id : Option String
  player1_choice : Option Choice
  player2_choice : Option Choice
  player1_score : Nat
  player2_score : Nat
  last_result : Option String
  status : Status
deriving DecidableEq, Repr

/-- JavaScript truthiness of a nullable string column: `null` and the
empty string are falsy. -/
def truthy : Option String → Bool
  | none => false
  | some s => !(s == "")

/-- Result of `determineWinner`. -/
inductive Winner
  | player1
  | player2
  | draw
deriving DecidableEq, Repr

/-- The outcome resolver `determineWinner` of `src/actions/game.ts`
(lines 31-49): `null` when either choice is absent, `draw` on equal
choices, otherwise the fixed beats-relation. -/
def determineWinner (player1Choice player2Choice : Option Choice) : Option Winner :=
  match player1Choice, player2Choice with
  | none, _ => none
  | _, none => none
  | some c1, some c2 =>
    if c1 = c2 then
      some Winner.draw
    else if (c1 = Choice.rock ∧ c2 = Choice.scissors) ∨
            (c1 = Choice.paper ∧ c2 = Choice.rock) ∨
            (c1 = Choice.scissors ∧ c2 = Choice.paper) then
      some Winner.player1
    else
      some Winner.player2

/-- `Partial<Game>` for an `update` call: a field that is `none` is not
written; `some v` writes `v` into the column. -/
structure GameUpdate where
  player1_choice : Option (Option Choice) := none
  player2_choice : Option (Option Choice) := none
  player1_score : Option Nat := none
  player2_score : Option Nat := none
  last_result : Option (Option String) := none
  player2_id : Option (Option String) := none
  status : Option Status := none
deriving DecidableEq, Repr

/-- Column-wise application of a partial update to a stored row, as the
database performs an `update` statement. -/
def applyUpdate (g : Game) (u : GameUpdate) : Game :=
  { g with
    player1_choice := u.player1_choice.getD g.player1_choice
    player2_choice := u.player2_choice.getD g.player2_choice
    player1_score := u.player1_score.getD g.player1_score
    player2_score := u.player2_score.getD g.player2_score
    last_result := u.last_result.getD g.last_result
    player2_id := u.player2_id.getD g.player2_id
    status := u.status.getD g.status }

/-- Reply of `createGame` / `joinGame`: either `{ error }` or
`{ gameId, playerId, playerNumber }`. -/
inductive JoinResult
  | err (msg : String)
  | ok (gameId : String) (playerId : String) (playerNumber : Nat)
deriving DecidableEq, Repr

/-- Reply of `makeMove` / `resetGame`: either `{ error }` or
`{ success: true }`. -/
inductive ActionResult
  | err (msg : String)
  | success
deriving DecidableEq, Repr

/-- Modelled from the spec: the `games` table schema is not under `src/`;
the insert in `createGame` names only `player1_id` and `status`, the
remaining columns take the table defaults, which the spec fixes as zeroed
scores, no choices, no second participant, no last result. -/
def gameRowDefaults (gid : String) : Game :=
  { id := gid
    player1_id := none
    player2_id := none
    player1_choice := none
    player2_choice := none
    player1_score := 0
    player2_score := 0
    last_result := none
    status := Status.waiting }

/-- `createGame` (lines 51-64): inserts a row with `player1_id = userId`
and `status = "waiting"` and replies with the new id and player number 1.
`gid` is the id the database assigns to the inserted row. -/
def createGame (gid : String) (userId : String) : Game × JoinResult :=
  let row := { gameRowDefaults gid with
                 player1_id := some userId
                 status := Status.waiting }
  (row, JoinResult.ok gid userId 1)

/-- Decision phase of `joinGame` on the fetched row: either reply without
writing, or perform the slot-B update. -/
inductive JoinAction
  | reply (r : JoinResult)
  | write (userId : String)
deriving DecidableEq, Repr

/-- `joinGame` decision logic (lines 72-79) applied to the fetched
snapshot. -/
def joinGameDecide (game : Game) (userId : String) : JoinAction :=
  if game.player1_id = some userId ∨ game.player2_id = some userId then
    JoinAction.reply (JoinResult.ok game.id userId
      (if game.player1_id = some userId then 1 else 2))
  else if truthy game.player2_id then
    JoinAction.reply (JoinResult.err "Game is already full")
  else
    JoinAction.write userId

/-- The unconditional update `joinGame` issues when it decided to admit:
`{ player2_id: userId, status: "playing" }` with no guard on the current
value of `player2_id`. -/
def joinWriteUpdate (userId : String) : GameUpdate :=
  { player2_id := some (some userId)
    status := some Status.playing }

/-- `joinGame` (lines 66-95) under serialized execution: fetch the row,
decide, and when admitting apply the update to the row the fetch saw. -/
def joinGame (fetched : Option Game) (userId : String) : JoinResult × Option Game :=
  match fetched with
  | none => (JoinResult.err "Game not found", none)
  | some game =>
    match joinGameDecide game userId with
    | JoinAction.reply r => (r, some game)
    | JoinAction.write uid =>
      let g := applyUpdate game (joinWriteUpdate uid)
      (JoinResult.ok g.id uid 2, some g)

/-- Body shared by both slots of `makeMove`: record the mover's choice,
and if the resulting pair is complete, resolve the round (lines 108-136). -/
def makeMoveBody (game : Game) (choice : Choice) (isPlayer1 : Bool) : GameUpdate :=
  let base : GameUpdate :=
    if isPlayer1 then { player1_choice := some (some choice) }
    else { player2_choice := some (some choice) }
  let player1CurrentChoice := if isPlayer1 then some choice else game.player1_choice
  let player2CurrentChoice := if isPlayer1 then game.player2_choice else some choice
  if player1CurrentChoice.isSome && player2CurrentChoice.isSome then
    let winner := determineWinner player1CurrentChoice player2CurrentChoice
    let scored : GameUpdate :=
      if winner = some Winner.player1 then
        { base with
            player1_score := some (game.player1_score + 1)
            last_result := some (some "Player 1 wins this round!") }
      else if winner = some Winner.player2 then
        { base with
            player2_score := some (game.player2_score + 1)
            last_result := some (some "Player 2 wins this round!") }
      else
        { base with last_result := some (some "It\x27s a draw!") }
    { scored with
        player1_choice := some none
        player2_choice := some none }
  else
    { base with last_result := some none }

/-- Decision phase of `makeMove` (lines 104-136) on the fetched snapshot:
`none` models the `Invalid player for this game` early return, otherwise
the partial update the call will issue. -/
def makeMoveUpdate (game : Game) (playerId : String) (choice : Choice) :
    Option GameUpdate :=
  if game.player1_id = some playerId then
    some (makeMoveBody game choice true)
  else if game.player2_id = some playerId then
    some (makeMoveBody game choice false)
  else
    none

/-- `makeMove` (lines 97-148) under serialized execution. -/
def makeMove (fetched : Option Game) (playerId : String) (choice : Choice) :
    ActionResult × Option Game :=
  match fetched with
  | none => (ActionResult.err "Game not found", none)
  | some game =>
    match makeMoveUpdate game playerId choice with
    | none => (ActionResult.err "Invalid player for this game", some game)
    | some u => (ActionResult.success, some (applyUpdate game u))

/-- `resetGame` (lines 158-184): clear choices, zero scores, clear the
last result, and recompute the status from the presence of a second
player. -/
def resetGame (fetched : Option Game) : ActionResult × Option Game :=
  match fetched with
  | none => (ActionResult.err "Game not found", none)
  | some game =>
    let u : GameUpdate :=
      { player1_choice := some none
        player2_choice := some none
        player1_score := some 0
        player2_score := some 0
        last_result := some none
        status := some (if truthy game.player2_id then Status.playing
                        else Status.waiting) }
    (ActionResult.success, some (applyUpdate game u))

/-!
## Properties of a completed round

`roundResolved game g2 p1c p2c` states what claim C1 requires of the row
`g2` persisted by a `makeMove` call that completed a round whose resulting
choice pair is `(p1c, p2c)` starting from row `game`: the outcome resolver
decides the round, exactly the winning side's score grows by 1 (neither on
a draw), `last_result` names the outcome, and both pending choices are
cleared in the same write.
-/

def roundResolved (game g2 : Game) (p1c p2c : Option Choice) : Prop :=
  g2.player1_choice = none ∧
  g2.player2_choice = none ∧
  determineWinner p1c p2c ≠ none ∧
  (determineWinner p1c p2c = some Winner.player1 →
    g2.player1_score = game.player1_score + 1 ∧
    g2.player2_score = game.player2_score ∧
    g2.last_result = some "Player 1 wins this round!") ∧
  (determineWinner p1c p2c = some Winner.player2 →
    g2.player2_score = game.player2_score + 1 ∧
    g2.player1_score = game.player1_score ∧
    g2.last_result = some "Player 2 wins this round!") ∧
  (determineWinner p1c p2c = some Winner.draw →
    g2.player1_score = game.player1_score ∧
    g2.player2_score = game.player2_score ∧
    g2.last_result = some "It\x27s a draw!")

/-- On a pair of present choices the resolver always decides. -/
theorem determineWinner_isSome (c1 c2 : Choice) :
    (determineWinner (some c1) (some c2)).isSome := by
  cases c1 <;> cases c2 <;> decide

/-- Claim C4: `determineWinner` is pure and total; it returns `null` when
either input is absent, `draw` on equal choices, decides the three winning
pairs for player 1 by the cyclic beats-relation, and every ordered pair
won by player 1 has its mirrored pair won by player 2. -/
theorem claim_C4 :
    (∀ a : Option Choice, determineWinner a none = none ∧
      determineWinner none a = none) ∧
    (∀ c : Choice, determineWinner (some c) (some c) = some Winner.draw) ∧
    determineWinner (some Choice.rock) (some Choice.scissors) =
      some Winner.player1 ∧
    determineWinner (some Choice.paper) (some Choice.rock) =
      some Winner.player1 ∧
    determineWinner (some Choice.scissors) (some Choice.paper) =
      some Winner.player1 ∧
    (∀ c1 c2 : Choice,
      (determineWinner (some c1) (some c2) = some Winner.player1 ↔
        determineWinner (some c2) (some c1) = some Winner.player2)) := by
  decide

/-- Claim C9: `createGame` builds a row with `player1_id` the requester,
status WAITING, zeroed scores, no choices, no second participant, and
replies with the new id and player number 1. -/
theorem claim_C9 (gid userId : String) :
    createGame gid userId =
      ({ id := gid
         player1_id := some userId
         player2_id := none
         player1_choice := none
         player2_choice := none
         player1_score := 0
         player2_score := 0
         last_result := none
         status := Status.waiting },
       JoinResult.ok gid userId 1) := rfl

/-- Claim C7: `resetGame` fails with NOT_FOUND on a missing match, and on
an existing match rewrites exactly the choice, score, `last_result` and
status fields — choices cleared, scores zeroed, result cleared, status
recomputed as PLAYING when `player2_id` is set (the code's truthiness
test: non-null and non-empty) and WAITING otherwise — leaving `id`,
`player1_id` and `player2_id` untouched. -/
theorem claim_C7 (game : Game) :
    resetGame none = (ActionResult.err "Game not found", none) ∧
    resetGame (some game) =
      (ActionResult.success,
       some { game with
                player1_choice := none
                player2_choice := none
                player1_score := 0
                player2_score := 0
                last_result := none
                status := if truthy game.player2_id then Status.playing
                          else Status.waiting }) :=
  ⟨rfl, rfl⟩

/-- Claim C6: for a requester already bound to slot A or B, `joinGame`
replies with the already-assigned slot number (1 for A, else 2), writes
nothing, and a repeated call on the resulting state gives the same reply. -/
theorem claim_C6 (game : Game) (uid : String)
    (h : game.player1_id = some uid ∨ game.player2_id = some uid) :
    joinGame (some game) uid =
      (JoinResult.ok game.id uid
        (if game.player1_id = some uid then 1 else 2), some game) ∧
    joinGame (joinGame (some game) uid).2 uid = joinGame (some game) uid := by
  have hd : joinGameDecide game uid =
      JoinAction.reply (JoinResult.ok game.id uid
        (if game.player1_id = some uid then 1 else 2)) := by
    unfold joinGameDecide
    rw [if_pos h]
  have h1 : joinGame (some game) uid =
      (JoinResult.ok game.id uid
        (if game.player1_id = some uid then 1 else 2), some game) := by
    simp [joinGame, hd]
  exact ⟨h1, by rw [h1]; exact h1⟩

/-- The row used to exercise claim C6: "u1" occupies slot A and "u2"
occupies slot B of a PLAYING match. -/
def gBound : Game :=
  { gameRowDefaults "g" with
      player1_id := some "u1"
      player2_id := some "u2"
      status := Status.playing }

/-- Witness for claim C6 at a concrete bound requester. -/
theorem claim_C6_witness :
    joinGame (some gBound) "u2" = (JoinResult.ok "g" "u2" 2, some gBound) ∧
    joinGame (joinGame (some gBound) "u2").2 "u2" =
      joinGame (some gBound) "u2" := by
  have h := claim_C6 gBound "u2" (Or.inr rfl)
  exact ⟨by rw [h.1]; decide, h.2⟩

/-- A WAITING row whose slot A holds "u1" and whose slot B is empty. -/
def gWaiting : Game :=
  { gameRowDefaults "g" with player1_id := some "u1" }

/-- Counterexample to claim C5 as stated: for the requester "u1", who
already occupies slot A of a match whose slot B is empty, neither failure
case of the claim applies, so the claim demands that `joinGame` bind slot
B to "u1" and reply with slot number 2; the code instead replies with slot
number 1 and writes nothing. -/
theorem claim_C5_counterexample :
    gWaiting.player2_id = none ∧
    joinGame (some gWaiting) "u1" = (JoinResult.ok "g" "u1" 1, some gWaiting) ∧
    joinGame (some gWaiting) "u1" ≠
      (JoinResult.ok "g" "u1" 2,
        some { gWaiting with
                 player2_id := some "u1"
                 status := Status.playing }) := by
  decide

/-- Claim C5 as amended: `joinGame` fails with NOT_FOUND on a missing
match; for a requester bound to neither slot it fails with MATCH_FULL
when slot B is occupied (the code's truthiness test) and otherwise binds
slot B to the requester, sets status PLAYING and replies with slot
number 2.  (The already-bound requester case is claim C6's.) -/
theorem claim_C5_amended (game : Game) (uid : String)
    (h1 : game.player1_id ≠ some uid) (h2 : game.player2_id ≠ some uid) :
    joinGame none uid = (JoinResult.err "Game not found", none) ∧
    (truthy game.player2_id = true →
      joinGame (some game) uid =
        (JoinResult.err "Game is already full", some game)) ∧
    (truthy game.player2_id = false →
      joinGame (some game) uid =
        (JoinResult.ok game.id uid 2,
          some { game with
                   player2_id := some uid
                   status := Status.playing })) := by
  have hnor : ¬(game.player1_id = some uid ∨ game.player2_id = some uid) :=
    not_or.mpr ⟨h1, h2⟩
  refine ⟨rfl, ?_, ?_⟩ <;> intro ht
  · have hd : joinGameDecide game uid =
        JoinAction.reply (JoinResult.err "Game is already full") := by
      unfold joinGameDecide
      rw [if_neg hnor, ht]
      simp
    simp [joinGame, hd]
  · have hd : joinGameDecide game uid = JoinAction.write uid := by
      unfold joinGameDecide
      rw [if_neg hnor, ht]
      simp
    simp [joinGame, hd, applyUpdate, joinWriteUpdate]

/-- Witness for claim C5 as amended: "u2" joins the waiting match. -/
theorem claim_C5_amended_witness :
    joinGame none "u2" = (JoinResult.err "Game not found", none) ∧
    joinGame (some gWaiting) "u2" =
      (JoinResult.ok "g" "u2" 2,
        some { gWaiting with
                 player2_id := some "u2"
                 status := Status.playing }) := by
  have h := claim_C5_amended gWaiting "u2" (by decide) (by decide)
  exact ⟨h.1, by rw [h.2.2 (by decide)]; decide⟩

/-- Claim C1: a `makeMove` by a bound participant that completes the
choice pair resolves the round in the single update it issues: the
resolver decides the outcome, exactly the winning side's score is
incremented by 1 (neither on a draw, never the losing side),
`last_result` names the outcome, and both pending choices are cleared.
The first conjunct is the slot-A mover (slot B's choice `cOpp` already
present), the second the slot-B mover. -/
theorem claim_C1 (game : Game) (pid : String) (c cOpp : Choice) :
    (game.player1_id = some pid → game.player2_choice = some cOpp →
      ∃ g2, makeMove (some game) pid c = (ActionResult.success, some g2) ∧
        roundResolved game g2 (some c) (some cOpp)) ∧
    (game.player1_id ≠ some pid → game.player2_id = some pid →
      game.player1_choice = some cOpp →
      ∃ g2, makeMove (some game) pid c = (ActionResult.success, some g2) ∧
        roundResolved game g2 (some cOpp) (some c)) := by
  constructor
  · intro hslot hopp
    refine ⟨applyUpdate game (makeMoveBody game c true), ?_, ?_⟩
    · simp [makeMove, makeMoveUpdate, hslot]
    · cases c <;> cases cOpp <;>
        simp [roundResolved, makeMoveBody, hopp, applyUpdate, determineWinner]
  · intro hne hslot hopp
    refine ⟨applyUpdate game (makeMoveBody game c false), ?_, ?_⟩
    · simp [makeMove, makeMoveUpdate, hne, hslot]
    · cases c <;> cases cOpp <;>
        simp [roundResolved, makeMoveBody, hopp, applyUpdate, determineWinner]

/-- The row used to exercise claim C1: slot A already chose rock. -/
def gMidRound : Game :=
  { gameRowDefaults "g" with
      player1_id := some "u1"
      player2_id := some "u2"
      player1_choice := some Choice.rock
      status := Status.playing }

/-- Witness for claim C1: "u2" answers rock with scissors and the round
resolves. -/
theorem claim_C1_witness :
    ∃ g2, makeMove (some gMidRound) "u2" Choice.scissors =
        (ActionResult.success, some g2) ∧
      roundResolved gMidRound g2 (some Choice.rock) (some Choice.scissors) :=
  (claim_C1 gMidRound "u2" Choice.scissors Choice.rock).2
    (by decide) (by decide) (by decide)

/-- Claim C8: a `makeMove` by a bound participant whose opponent has not
yet moved records the mover's choice and clears `last_result` in the same
update. -/
theorem claim_C8 (game : Game) (pid : String) (c : Choice) :
    (game.player1_id = some pid → game.player2_choice = none →
      ∃ g2, makeMove (some game) pid c = (ActionResult.success, some g2) ∧
        g2.player1_choice = some c ∧ g2.player2_choice = none ∧
        g2.last_result = none) ∧
    (game.player1_id ≠ some pid → game.player2_id = some pid →
      game.player1_choice = none →
      ∃ g2, makeMove (some game) pid c = (ActionResult.success, some g2) ∧
        g2.player2_choice = some c ∧ g2.player1_choice = none ∧
        g2.last_result = none) := by
  constructor
  · intro hslot hopp
    refine ⟨applyUpdate game (makeMoveBody game c true), ?_, ?_⟩
    · simp [makeMove, makeMoveUpdate, hslot]
    · simp [makeMoveBody, hopp, applyUpdate]
  · intro hne hslot hopp
    refine ⟨applyUpdate game (makeMoveBody game c false), ?_, ?_⟩
    · simp [makeMove, makeMoveUpdate, hne, hslot]
    · simp [makeMoveBody, hopp, applyUpdate]

/-- The row used to exercise claim C8: both slots bound, no choice yet. -/
def gFresh : Game :=
  { gameRowDefaults "g" with
      player1_id := some "u1"
      player2_id := some "u2"
      status := Status.playing }

/-- Witness for claim C8: "u1" moves first; the choice is recorded and
`last_result` is cleared. -/
theorem claim_C8_witness :
    ∃ g2, makeMove (some gFresh) "u1" Choice.paper =
        (ActionResult.success, some g2) ∧
      g2.player1_choice = some Choice.paper ∧ g2.player2_choice = none ∧
      g2.last_result = none :=
  (claim_C8 gFresh "u1" Choice.paper).1 (by decide) (by decide)

/-- Claim C10: `makeMove` never inspects `status`: the update it computes
on a row is the same for every status, and a move by a bound participant
is accepted whatever the status; the only rejections are NOT_FOUND for a
missing match and INVALID_PARTICIPANT for an unbound identifier, and in
both error cases no write is issued. -/
theorem claim_C10 (game : Game) (pid : String) (c : Choice) :
    makeMove none pid c = (ActionResult.err "Game not found", none) ∧
    (game.player1_id ≠ some pid → game.player2_id ≠ some pid →
      makeMove (some game) pid c =
        (ActionResult.err "Invalid player for this game", some game)) ∧
    (game.player1_id = some pid ∨ game.player2_id = some pid →
      (makeMove (some game) pid c).1 = ActionResult.success) ∧
    (∀ st : Status,
      makeMoveUpdate { game with status := st } pid c =
        makeMoveUpdate game pid c) := by
  refine ⟨rfl, ?_, ?_, ?_⟩
  · intro h1 h2
    simp [makeMove, makeMoveUpdate, h1, h2]
  · intro h
    rcases h with h | h
    · simp [makeMove, makeMoveUpdate, h]
    · by_cases h1 : game.player1_id = some pid <;>
        simp [makeMove, makeMoveUpdate, h1, h]
  · intro st
    cases game
    rfl

/-- Witness for claim C10: the waiting, single-participant match `gWaiting`
accepts a move from its only participant; unbound identifiers and missing
matches are rejected without a write. -/
theorem claim_C10_witness :
    makeMove none "u1" Choice.rock = (ActionResult.err "Game not found", none) ∧
    makeMove (some gWaiting) "zz" Choice.rock =
      (ActionResult.err "Invalid player for this game", some gWaiting) ∧
    (makeMove (some gWaiting) "u1" Choice.rock).1 = ActionResult.success ∧
    makeMoveUpdate { gWaiting with status := Status.finished } "u1" Choice.rock =
      makeMoveUpdate gWaiting "u1" Choice.rock := by
  have ha := claim_C10 gWaiting "u1" Choice.rock
  have hb := claim_C10 gWaiting "zz" Choice.rock
  exact ⟨ha.1, hb.2.1 (by decide) (by decide),
    ha.2.2.1 (Or.inl (by decide)), ha.2.2.2 Status.finished⟩

/-!
## Interleaved executions

`joinGame` and `makeMove` each perform their fetch and their update as two
separate awaited operations, and the update carries no guard on the
values the fetch saw (no compare-and-set, no version column).  Two
concurrent calls on the same match may therefore both fetch before either
updates; each then applies its partial update to whatever row is current.
The two theorems below evaluate the code on such schedules.
-/

/-- The empty partial update (no column written). -/
def noUpdate : GameUpdate := {}

/-- The stored row after the schedule in which `makeMove(g, "u1", rock)`
and `makeMove(g, "u2", paper)` both fetch the fresh row `gFresh` before
either updates: each call's update is computed from the shared snapshot
and applied in turn. -/
def gRaceMoves : Game :=
  applyUpdate
    (applyUpdate gFresh
      ((makeMoveUpdate gFresh "u1" Choice.rock).getD noUpdate))
    ((makeMoveUpdate gFresh "u2" Choice.paper).getD noUpdate)

/-- Claim C2 fails on the code: when both participants' `makeMove` calls
fetch before either updates, both calls are accepted (each computes an
update and replies success), and the stored row afterwards has BOTH
choices non-null with no score change and no result — an unresolved
both-set state visible to every reader until some later move. -/
theorem claim_C2_bug :
    (makeMoveUpdate gFresh "u1" Choice.rock).isSome ∧
    (makeMoveUpdate gFresh "u2" Choice.paper).isSome ∧
    gRaceMoves.player1_choice = some Choice.rock ∧
    gRaceMoves.player2_choice = some Choice.paper ∧
    gRaceMoves.player1_score = 0 ∧
    gRaceMoves.player2_score = 0 ∧
    gRaceMoves.last_result = none := by
  decide

/-- The stored row after the schedule in which `joinGame(g, "u2")` and
`joinGame(g, "u3")` both fetch the waiting row `gWaiting` before either
updates. -/
def gRaceJoins : Game :=
  applyUpdate (applyUpdate gWaiting (joinWriteUpdate "u2"))
    (joinWriteUpdate "u3")

/-- Claim C3 fails on the code: on the shared snapshot of the WAITING
match both concurrent `joinGame` calls decide to write (neither observes
MATCH_FULL), each unconditionally sets `player2_id` to its own requester
and replies success with slot 2, and the later write silently overwrites
the earlier binding. -/
theorem claim_C3_bug :
    joinGameDecide gWaiting "u2" = JoinAction.write "u2" ∧
    joinGameDecide gWaiting "u3" = JoinAction.write "u3" ∧
    gRaceJoins.player2_id = some "u3" ∧
    gRaceJoins.status = Status.playing ∧
    joinGame (some gWaiting) "u2" =
      (JoinResult.ok "g" "u2" 2,
        some (applyUpdate gWaiting (joinWriteUpdate "u2"))) := by
  decide
